import Mathlib

/-!
# Verification of the message send/retry flow of the ask-jds mobile app

Shallow embedding of the retry/backoff message-delivery flow:

* `getBackoffDelay` — utils/backoff.ts (`src/unnamed/part_000`)
* `sendMessage`, `retryMessage`, the connectivity resync effect —
  `src/app/(tabs)/index.tsx`
* `setMessages` / `syncMessages` cache keys — `src/stores/messagesStore.ts`

JavaScript numbers are modelled as `Nat` (all the quantities involved are
small non-negative integers), JS strings as `String`, optional record
fields (`pending?`, `failed?`) as `Bool` with default `false` (an absent
field is falsy, exactly how the code reads them), and `retryCount?` as
`Option Nat`.  Remote calls (supabase inserts, the chat-relay fetch) are
modelled by environment parameters describing the outcome of each call;
the model records the calls that were issued so that claims about side
effects ("no network call", "exactly one assistant insert") are statable.
-/

namespace AskJDS

/-- Message role, from the `role: 'user' | 'assistant'` union type. -/
inductive Role where
  | user
  | assistant
  deriving DecidableEq, Repr

/-- The `Message` interface of `index.tsx`.  `pending?`/`failed?` are
optional booleans (absent = falsy = `false`); `retryCount?` is an optional
number. -/
structure Message where
  id : String
  content : String
  role : Role
  created_at : String
  thread_id : String
  pending : Bool := false
  failed : Bool := false
  retryCount : Option Nat := none
  deriving DecidableEq, Repr

/-! ## Backoff policy (utils/backoff.ts) -/

/-- `const INITIAL_RETRY_DELAY = 2000; // 2 seconds` -/
def INITIAL_RETRY_DELAY : Nat := 2000

/-- `const MAX_RETRIES = 4;` -/
def MAX_RETRIES : Nat := 4

/-- `getBackoffDelay = (attempt) => Math.min(INITIAL_RETRY_DELAY * Math.pow(2, attempt), 30000)` -/
def getBackoffDelay (attempt : Nat) : Nat :=
  min (INITIAL_RETRY_DELAY * 2 ^ attempt) 30000

/-! ## JavaScript helpers -/

/-- JS whitespace test for the characters relevant to `String.prototype.trim`. -/
def isJsWhitespace (c : Char) : Bool :=
  c = ' ' || c = '\t' || c = '\n' || c = '\r'

/-- Model of JavaScript `String.prototype.trim`: drop leading and trailing
whitespace. -/
def jsTrim (s : String) : String :=
  String.mk (((s.data.dropWhile isJsWhitespace).reverse.dropWhile isJsWhitespace).reverse)

/-- Model of JavaScript `String.prototype.startsWith`. -/
def jsStartsWith (s pre : String) : Bool :=
  pre.data.isPrefixOf s.data

/-- Model of JS `a || b` on an optional string `a` (an absent or empty
string is falsy). -/
def jsOr (a : Option String) (b : String) : String :=
  match a with
  | some s => if s = "" then b else s
  | none => b

/-! ## Conversation-store updates (the `setMessages` updaters of index.tsx) -/

/-- `setMessages(prev => prev.map(msg => msg.id === id ? { ...msg, failed: true, pending: false } : msg))`
— the failure transition of `sendMessage`. -/
def markFailed (id : String) (msgs : List Message) : List Message :=
  msgs.map fun m => if m.id = id then { m with failed := true, pending := false } else m

/-- The terminal-failure updater of `retryMessage` (`attempt >= 4` branch):
`{ ...msg, failed: true, pending: false, retryCount: attempt }`. -/
def markTerminalFailed (id : String) (attempt : Nat) (msgs : List Message) : List Message :=
  msgs.map fun m =>
    if m.id = id then { m with failed := true, pending := false, retryCount := some attempt }
    else m

/-- The success updater of `retryMessage`:
`{ ...msg, failed: false, pending: false, retryCount: attempt }`. -/
def markRetrySuccess (id : String) (attempt : Nat) (msgs : List Message) : List Message :=
  msgs.map fun m =>
    if m.id = id then { m with failed := false, pending := false, retryCount := some attempt }
    else m

/-! ## Remote-call environments -/

/-- Outcome of a `fetch` of the chat relay.  `ok content` is a 2xx response
whose JSON body has a `choices[0].message` object with optional `content`
string; `err status message` is a non-2xx response with HTTP status
`status` whose parsed error body has optional field `message` (`none` also
covers an unparsable body, which `sendMessage` turns into `{}`). -/
inductive RelayResult where
  | ok (content : Option String)
  | err (status : Nat) (message : Option String)
  deriving DecidableEq, Repr

/-- Environment of one `sendMessage` run: the outcome of each remote call
it may issue, in program order. -/
structure SendEnv where
  /-- `error` of the supabase insert of the user row (`none` = success). -/
  userInsertError : Option String
  /-- whether `supabase.auth.getSession()` returns a session. -/
  sessionPresent : Bool
  /-- outcome of the chat-relay fetch. -/
  relay : RelayResult
  /-- `error` of the supabase insert of the assistant row (`none` = success). -/
  assistantInsertError : Option String
  deriving DecidableEq, Repr

/-- The component state `sendMessage` reads and writes: the `messages`,
`input`, `isLoading` and `error` React states. -/
structure ChatState where
  messages : List Message
  input : String
  isLoading : Bool
  error : Option String
  deriving DecidableEq, Repr

/-- Result of a `sendMessage` run: the final component state plus counters
of the remote calls that were issued and of the rows successfully written. -/
structure SendResult where
  messages : List Message
  input : String
  isLoading : Bool
  error : Option String
  /-- supabase inserts attempted on the `messages` table for the user row. -/
  userInsertCalls : Nat
  /-- supabase inserts attempted on the `messages` table for the assistant row. -/
  assistantInsertCalls : Nat
  /-- rows with `role: 'assistant'` successfully written remotely. -/
  assistantRowsInserted : Nat
  /-- fetches of the chat relay. -/
  relayCalls : Nat
  deriving DecidableEq, Repr

/-- The user `Message` that `sendMessage` constructs and appends
optimistically (no `pending`/`failed` field, hence both falsy). -/
def mkUserMessage (newId content createdAt threadId : String) : Message :=
  { id := newId, content := content, role := .user,
    created_at := createdAt, thread_id := threadId }

/-- The assistant `Message` that `sendMessage` appends on success. -/
def mkAssistantMessage (newId content createdAt threadId : String) : Message :=
  { id := newId, content := content, role := .assistant,
    created_at := createdAt, thread_id := threadId }

/-- Shallow embedding of `sendMessage` (index.tsx lines 293-418).
`hasThread` models `currentThread` being non-null; `newUserId`,
`userCreatedAt`, `newAssistantId`, `assistantCreatedAt` stand for the two
`Date.now().toString()` / `new Date().toISOString()` evaluations; `threadId`
is `currentThread.id`.  The guard, the optimistic append, each remote call
and both catch/finally updates follow the source line by line. -/
def sendMessage (env : SendEnv) (hasThread : Bool)
    (newUserId userCreatedAt newAssistantId assistantCreatedAt threadId : String)
    (st : ChatState) : SendResult :=
  -- `if (!input.trim() || isLoading || !currentThread) return;`
  if jsTrim st.input = "" ∨ st.isLoading = true ∨ hasThread = false then
    { messages := st.messages, input := st.input, isLoading := st.isLoading,
      error := st.error, userInsertCalls := 0, assistantInsertCalls := 0,
      assistantRowsInserted := 0, relayCalls := 0 }
  else
    let userMessage := jsTrim st.input
    let newMessage := mkUserMessage newUserId userMessage userCreatedAt threadId
    -- optimistic append; `setInput('')`, `setIsLoading(true)` already done
    let msgs1 := st.messages ++ [newMessage]
    -- catch branch: `setError(message)` + mark the new message failed,
    -- then `finally setIsLoading(false)`
    let fail := fun (errMsg : String) (uIns aIns relay : Nat) =>
      { messages := markFailed newMessage.id msgs1, input := "",
        isLoading := false, error := some errMsg,
        userInsertCalls := uIns, assistantInsertCalls := aIns,
        assistantRowsInserted := 0, relayCalls := relay : SendResult }
    match env.userInsertError with
    | some e => fail ("Failed to save user message: " ++ e) 1 0 0
    | none =>
      if env.sessionPresent = false then fail "No active session" 1 0 0
      else
        match env.relay with
        | .err status msg =>
            fail (jsOr msg ("AI request failed with status " ++ toString status)) 1 0 1
        | .ok content =>
            -- `if (!aiResponse.choices?.[0]?.message?.content) throw ...`
            match content with
            | none => fail "Invalid AI response format" 1 0 1
            | some c =>
              if c = "" then fail "Invalid AI response format" 1 0 1
              else
                match env.assistantInsertError with
                | some _ =>
                    -- `throw assistantError` throws a non-Error value, so the
                    -- catch surfaces the fallback string
                    fail "Failed to send message" 1 1 1
                | none =>
                    { messages := msgs1 ++
                        [mkAssistantMessage newAssistantId c assistantCreatedAt threadId],
                      input := "", isLoading := false, error := st.error,
                      userInsertCalls := 1, assistantInsertCalls := 1,
                      assistantRowsInserted := 1, relayCalls := 1 }

/-! ## Retry controller (`retryMessage`, index.tsx lines 665-744) -/

/-- Environment of one retry attempt: outcome of each remote call that
attempt may issue.  `relay = .ok _` stands for a 2xx response whose body
has a `choices[0].message` object (retryMessage reads `.content` but never
checks it). -/
structure RetryAttemptEnv where
  sessionPresent : Bool
  relay : RelayResult
  /-- whether the supabase insert of the original message's row errors. -/
  insertFails : Bool
  deriving DecidableEq, Repr

/-- Result of a `retryMessage` run. -/
structure RetryResult where
  messages : List Message
  error : Option String
  isLoading : Bool
  /-- fetches of the chat relay, over all attempts. -/
  relayCalls : Nat
  /-- rows successfully inserted into the remote `messages` table, as
  (content, role) pairs, over all attempts. -/
  insertedRows : List (String × Role)
  /-- backoff delays slept, in order. -/
  delays : List Nat
  deriving DecidableEq, Repr

/-- Shallow embedding of `retryMessage(message, attempt)`.  `env k`
describes the remote outcomes of the attempt numbered `k`; `msgs` is the
current `messages` state; `isLoading` is its state on entry (the terminal
branch returns before touching it, every other branch ends in
`finally setIsLoading(false)`, which runs after the recursive call).
On success the code inserts `{content: message.content, role: message.role}`
— the original message's row — and only flips the flags in the store. -/
def retryMessage (env : Nat → RetryAttemptEnv) (message : Message)
    (msgs : List Message) (attempt : Nat) (isLoading : Bool) : RetryResult :=
  if _h : 4 ≤ attempt then
    -- `if (attempt >= 4) { setError(...); setMessages(terminal); return; }`
    { messages := markTerminalFailed message.id attempt msgs,
      error := some "Message failed after multiple attempts",
      isLoading := isLoading, relayCalls := 0, insertedRows := [], delays := [] }
  else
    -- `setIsLoading(true); setError(null);`
    let delays0 := if 0 < attempt then [getBackoffDelay attempt] else []
    let e := env attempt
    if e.sessionPresent = false then
      -- `throw new Error('No active session')` → catch → recurse
      let r := retryMessage env message msgs (attempt + 1) true
      { r with isLoading := false, delays := delays0 ++ r.delays }
    else
      match e.relay with
      | .err _ _ =>
          -- `throw new Error(...)` → catch → recurse
          let r := retryMessage env message msgs (attempt + 1) true
          { r with
              isLoading := false
              relayCalls := r.relayCalls + 1
              delays := delays0 ++ r.delays }
      | .ok _ =>
          if e.insertFails then
            -- `if (error) throw error;` → catch → recurse
            let r := retryMessage env message msgs (attempt + 1) true
            { r with
                isLoading := false
                relayCalls := r.relayCalls + 1
                delays := delays0 ++ r.delays }
          else
            { messages := markRetrySuccess message.id attempt msgs,
              error := none, isLoading := false, relayCalls := 1,
              insertedRows := [(message.content, message.role)],
              delays := delays0 }
termination_by 4 - attempt
decreasing_by all_goals omega

/-- A retry attempt whose environment makes it throw (missing session,
non-2xx relay response, or failing insert). -/
def attemptFails (e : RetryAttemptEnv) : Prop :=
  e.sessionPresent = false ∨ (∃ s m, e.relay = .err s m) ∨
    (∃ c, e.relay = .ok c ∧ e.insertFails = true)

/-- A retry attempt whose environment lets the whole try block succeed. -/
def attemptSucceeds (e : RetryAttemptEnv) : Prop :=
  e.sessionPresent = true ∧ (∃ c, e.relay = .ok c) ∧ e.insertFails = false

/-! ## The store updates of the delivery/retry flow, as one operation type
(for the pending/failed exclusivity invariant) -/

/-- The four `setMessages` updates of the delivery/retry flow in
index.tsx: the optimistic append of `sendMessage`, its catch-branch
failure transition, and the terminal-failure and success transitions of
`retryMessage`. -/
inductive DeliveryOp where
  | optimisticAppend (newId content createdAt threadId : String)
  | sendFailure (id : String)
  | terminalRetryFailure (id : String) (attempt : Nat)
  | retrySuccess (id : String) (attempt : Nat)
  deriving DecidableEq, Repr

/-- Apply one store update of the delivery/retry flow. -/
def applyDeliveryOp : DeliveryOp → List Message → List Message
  | .optimisticAppend newId content createdAt threadId, msgs =>
      msgs ++ [mkUserMessage newId content createdAt threadId]
  | .sendFailure id, msgs => markFailed id msgs
  | .terminalRetryFailure id attempt, msgs => markTerminalFailed id attempt msgs
  | .retrySuccess id attempt, msgs => markRetrySuccess id attempt msgs

/-- `pending` and `failed` are not simultaneously true. -/
def flagsExclusive (m : Message) : Prop :=
  m.pending = false ∨ m.failed = false

/-! ## Connectivity resync (networkStore.ts + the `isOnline` effect and
`syncPendingMessages` of index.tsx) -/

/-- The state the connectivity resync touches: the network store's
`isOnline` flag and AsyncStorage, modelled as an association list whose
`pending_message_*` entries hold (already parsed) queued messages. -/
structure NetState where
  isOnline : Bool
  storage : List (String × Message)
  deriving DecidableEq, Repr

/-- The `pending_message_` entries of AsyncStorage, in key-enumeration
order (`keys.filter(key => key.startsWith('pending_message_'))`). -/
def pendingEntries (storage : List (String × Message)) : List (String × Message) :=
  storage.filter fun kv => jsStartsWith kv.1 "pending_message_"

/-- `syncPendingMessages`: for each pending key, invoke `retryMessage` on
the stored message and remove the key.  Returns the list of messages the
Retry Controller was invoked on (in order) and the remaining storage. -/
def syncPendingMessages (storage : List (String × Message)) :
    List Message × List (String × Message) :=
  ((pendingEntries storage).map Prod.snd,
   storage.filter fun kv => !jsStartsWith kv.1 "pending_message_")

/-- One connectivity notification: `NetInfo` reports `isConnected`
(`none` = `null`, coalesced to `true` by `state.isConnected ?? true`); the
network store updates `isOnline`; the `useEffect([isOnline])` of
index.tsx re-runs only when the value actually changes and calls
`syncPendingMessages()` when the new value is `true`. -/
def connectivityEvent (isConnected : Option Bool) (st : NetState) :
    NetState × List Message :=
  let newStatus := isConnected.getD true
  if newStatus = st.isOnline then ({ st with isOnline := newStatus }, [])
  else if newStatus then
    let p := syncPendingMessages st.storage
    ({ isOnline := true, storage := p.2 }, p.1)
  else ({ st with isOnline := false }, [])

/-! ## Durable message cache (stores/messagesStore.ts) -/

/-- AsyncStorage as seen by the messages store: keys to (deserialized)
message lists.  `JSON.stringify`/`JSON.parse` are modelled as the
identity on the stored list. -/
abbrev CacheStore := List (String × List Message)

/-- `AsyncStorage.setItem key value` over the association-list model. -/
def cacheSet (key : String) (v : List Message) (kv : CacheStore) : CacheStore :=
  (key, v) :: kv.filter fun e => e.1 != key

/-- `AsyncStorage.getItem key` over the association-list model. -/
def cacheGet (key : String) (kv : CacheStore) : Option (List Message) :=
  (kv.find? fun e => e.1 == key).map Prod.snd

/-- The zustand store state of messagesStore.ts together with its durable
cache. -/
structure StoreState where
  messages : List Message
  cache : CacheStore
  deriving DecidableEq, Repr

/-- `setMessages(messages)`: set the state and write the cache under the
constant key `'cached_messages'`. -/
def storeSetMessages (ms : List Message) (st : StoreState) : StoreState :=
  { messages := ms, cache := cacheSet "cached_messages" ms st.cache }

/-- `syncMessages(threadId)`: read `'cached_messages_' + threadId` from the
cache (populating the state if present), then query the server (`server =
none` models a failing query); on server data, set the state to it and
write it back under the per-thread key.  The second component is the
value the cached read observed. -/
def storeSyncMessages (threadId : String) (server : Option (List Message))
    (st : StoreState) : StoreState × Option (List Message) :=
  let cached := cacheGet ("cached_messages_" ++ threadId) st.cache
  let st1 := match cached with
    | some ms => { st with messages := ms }
    | none => st
  match server with
  | some data =>
      ({ messages := data,
         cache := cacheSet ("cached_messages_" ++ threadId) data st1.cache }, cached)
  | none => (st1, cached)

end AskJDS

namespace AskJDS

/-- C1: getBackoffDelay is pure; for every attempt in [0,10] it equals
min (2000 * 2^attempt) 30000, is monotonically non-decreasing on that
range, and is constantly 30000 once attempt >= 4. -/
theorem C1_backoff_delay (attempt : Nat) (h : attempt ≤ 10) :
    getBackoffDelay attempt = min (2000 * 2 ^ attempt) 30000 ∧
    (∀ b : Nat, attempt ≤ b → b ≤ 10 → getBackoffDelay attempt ≤ getBackoffDelay b) ∧
    (4 ≤ attempt → getBackoffDelay attempt = 30000) := by
  refine ⟨rfl, ?_, ?_⟩
  · intro b hab hb
    simp only [getBackoffDelay, INITIAL_RETRY_DELAY]
    exact min_le_min (Nat.mul_le_mul_left _ (Nat.pow_le_pow_right (by norm_num) hab)) le_rfl
  · intro h4
    simp only [getBackoffDelay, INITIAL_RETRY_DELAY]
    have : 30000 ≤ 2000 * 2 ^ attempt := by
      calc (30000 : Nat) ≤ 2000 * 2 ^ 4 := by norm_num
      _ ≤ 2000 * 2 ^ attempt := Nat.mul_le_mul_left _ (Nat.pow_le_pow_right (by norm_num) h4)
    omega

/-- Witness for C1 at attempt = 5. -/
theorem C1_backoff_delay_witness :
    getBackoffDelay 5 = min (2000 * 2 ^ 5) 30000 ∧
    (∀ b : Nat, 5 ≤ b → b ≤ 10 → getBackoffDelay 5 ≤ getBackoffDelay b) ∧
    (4 ≤ 5 → getBackoffDelay 5 = 30000) :=
  C1_backoff_delay 5 (by decide)

/-- Marking by id a message appended to a list of messages with other ids
rewrites exactly the appended message (sendMessage failure transition). -/
theorem markFailed_append_fresh (id : String) (msgs : List Message) (u : Message)
    (hfresh : ∀ m ∈ msgs, m.id ≠ id) (hu : u.id = id) :
    markFailed id (msgs ++ [u]) = msgs ++ [{ u with failed := true, pending := false }] := by
  induction msgs with
  | nil => simp [markFailed, hu]
  | cons m ms ih =>
      have hm : ¬ m.id = id := hfresh m (List.mem_cons_self m ms)
      have ih' := ih fun x hx => hfresh x (List.mem_cons_of_mem m hx)
      simp only [markFailed, List.cons_append, List.map_cons, if_neg hm] at ih' ⊢
      rw [ih']

/-- Every message of `markTerminalFailed id n msgs` carrying the marked id
has `failed = true`, `pending = false` and `retryCount = n`. -/
theorem markTerminalFailed_mem (id : String) (n : Nat) (msgs : List Message) :
    ∀ x ∈ markTerminalFailed id n msgs, x.id = id →
      x.failed = true ∧ x.pending = false ∧ x.retryCount = some n := by
  intro x hx hid
  simp only [markTerminalFailed, List.mem_map] at hx
  obtain ⟨m, hm, hx⟩ := hx
  by_cases h : m.id = id
  · rw [if_pos h] at hx
    subst hx
    exact ⟨rfl, rfl, rfl⟩
  · rw [if_neg h] at hx
    subst hx
    exact absurd hid h

/-- Every message of `markRetrySuccess id n msgs` carrying the marked id
has `failed = false`, `pending = false` and `retryCount = n`. -/
theorem markRetrySuccess_mem (id : String) (n : Nat) (msgs : List Message) :
    ∀ x ∈ markRetrySuccess id n msgs, x.id = id →
      x.failed = false ∧ x.pending = false ∧ x.retryCount = some n := by
  intro x hx hid
  simp only [markRetrySuccess, List.mem_map] at hx
  obtain ⟨m, hm, hx⟩ := hx
  by_cases h : m.id = id
  · rw [if_pos h] at hx
    subst hx
    exact ⟨rfl, rfl, rfl⟩
  · rw [if_neg h] at hx
    subst hx
    exact absurd hid h

/-- C5: a send whose input is empty or whitespace-only after trimming is a
complete no-op: the component state is unchanged and no supabase insert
and no relay call is issued. -/
theorem C5_empty_input_noop (env : SendEnv) (hasThread : Bool)
    (newUserId userCreatedAt newAssistantId assistantCreatedAt threadId : String)
    (st : ChatState) (h : jsTrim st.input = "") :
    sendMessage env hasThread newUserId userCreatedAt newAssistantId assistantCreatedAt
        threadId st =
      { messages := st.messages, input := st.input, isLoading := st.isLoading,
        error := st.error, userInsertCalls := 0, assistantInsertCalls := 0,
        assistantRowsInserted := 0, relayCalls := 0 } := by
  simp [sendMessage, h]

/-- Witness for C5 on the whitespace-only input `"   "`. -/
theorem C5_empty_input_noop_witness :
    jsTrim "   " = "" ∧
    sendMessage ⟨none, true, .ok (some "hi"), none⟩ true "1" "t1" "2" "t2" "th"
        ⟨[], "   ", false, none⟩ =
      { messages := [], input := "   ", isLoading := false, error := none,
        userInsertCalls := 0, assistantInsertCalls := 0,
        assistantRowsInserted := 0, relayCalls := 0 } :=
  ⟨by decide,
   C5_empty_input_noop ⟨none, true, .ok (some "hi"), none⟩ true "1" "t1" "2" "t2" "th"
     ⟨[], "   ", false, none⟩ (by decide)⟩

/-- C6: a successful send appends exactly two messages to the conversation
store — the optimistic user message followed by the assistant message, in
that order — and ends with the loading indicator cleared. -/
theorem C6_success_appends_two (env : SendEnv)
    (newUserId userCreatedAt newAssistantId assistantCreatedAt threadId : String)
    (st : ChatState) (c : String)
    (hin : jsTrim st.input ≠ "") (hload : st.isLoading = false)
    (hu : env.userInsertError = none) (hs : env.sessionPresent = true)
    (hr : env.relay = .ok (some c)) (hc : c ≠ "")
    (ha : env.assistantInsertError = none) :
    (sendMessage env true newUserId userCreatedAt newAssistantId assistantCreatedAt
        threadId st).messages =
      st.messages ++
        [mkUserMessage newUserId (jsTrim st.input) userCreatedAt threadId,
         mkAssistantMessage newAssistantId c assistantCreatedAt threadId] ∧
    (mkUserMessage newUserId (jsTrim st.input) userCreatedAt threadId).role = Role.user ∧
    (mkAssistantMessage newAssistantId c assistantCreatedAt threadId).role = Role.assistant ∧
    (sendMessage env true newUserId userCreatedAt newAssistantId assistantCreatedAt
        threadId st).isLoading = false := by
  simp [sendMessage, hin, hload, hu, hs, hr, hc, ha, mkUserMessage, mkAssistantMessage]

/-- Witness for C6 on the promissory-estoppel exchange of §8 of the spec. -/
theorem C6_success_appends_two_witness :
    jsTrim "What is promissory estoppel?" ≠ "" ∧
    (sendMessage ⟨none, true, .ok (some "Promissory estoppel is..."), none⟩ true
        "1" "t1" "2" "t2" "th"
        ⟨[], "What is promissory estoppel?", false, none⟩).messages =
      [mkUserMessage "1" (jsTrim "What is promissory estoppel?") "t1" "th",
       mkAssistantMessage "2" "Promissory estoppel is..." "t2" "th"] ∧
    (mkUserMessage "1" (jsTrim "What is promissory estoppel?") "t1" "th").role = Role.user ∧
    (mkAssistantMessage "2" "Promissory estoppel is..." "t2" "th").role = Role.assistant ∧
    (sendMessage ⟨none, true, .ok (some "Promissory estoppel is..."), none⟩ true
        "1" "t1" "2" "t2" "th"
        ⟨[], "What is promissory estoppel?", false, none⟩).isLoading = false := by
  have h := C6_success_appends_two
    ⟨none, true, .ok (some "Promissory estoppel is..."), none⟩
    "1" "t1" "2" "t2" "th"
    ⟨[], "What is promissory estoppel?", false, none⟩ "Promissory estoppel is..."
    (by decide) rfl rfl rfl rfl (by decide) rfl
  exact ⟨by decide, h.1, h.2.1, h.2.2.1, h.2.2.2⟩

/-- C4: a send whose relay call returns a non-2xx response whose error
body carries a non-empty `message` string marks the originating user
message `failed = true`, `pending = false`, creates no assistant message
(no assistant insert, no assistant row, no new assistant in the store),
and surfaces exactly that `message` string as the error. -/
theorem C4_relay_failure (env : SendEnv)
    (newUserId userCreatedAt newAssistantId assistantCreatedAt threadId : String)
    (st : ChatState) (status : Nat) (m : String)
    (hin : jsTrim st.input ≠ "") (hload : st.isLoading = false)
    (hu : env.userInsertError = none) (hs : env.sessionPresent = true)
    (hr : env.relay = .err status (some m)) (hm : m ≠ "")
    (hfresh : ∀ x ∈ st.messages, x.id ≠ newUserId) :
    (sendMessage env true newUserId userCreatedAt newAssistantId assistantCreatedAt
        threadId st).messages =
      st.messages ++
        [{ mkUserMessage newUserId (jsTrim st.input) userCreatedAt threadId with
            failed := true, pending := false }] ∧
    (sendMessage env true newUserId userCreatedAt newAssistantId assistantCreatedAt
        threadId st).error = some m ∧
    (sendMessage env true newUserId userCreatedAt newAssistantId assistantCreatedAt
        threadId st).assistantInsertCalls = 0 ∧
    (sendMessage env true newUserId userCreatedAt newAssistantId assistantCreatedAt
        threadId st).assistantRowsInserted = 0 ∧
    (∀ x ∈ (sendMessage env true newUserId userCreatedAt newAssistantId assistantCreatedAt
        threadId st).messages, x.role = Role.assistant → x ∈ st.messages) ∧
    (sendMessage env true newUserId userCreatedAt newAssistantId assistantCreatedAt
        threadId st).isLoading = false := by
  have hmark := markFailed_append_fresh newUserId st.messages
    (mkUserMessage newUserId (jsTrim st.input) userCreatedAt threadId) hfresh rfl
  refine ⟨?_, ?_, ?_, ?_, ?_, ?_⟩
  · simp only [sendMessage, hin, hload, hu, hs, hr]
    simp only [mkUserMessage] at hmark ⊢
    exact hmark
  · simp [sendMessage, hin, hload, hu, hs, hr, jsOr, hm]
  · simp [sendMessage, hin, hload, hu, hs, hr]
  · simp [sendMessage, hin, hload, hu, hs, hr]
  · intro x hx hrole
    simp only [sendMessage, hin, hload, hu, hs, hr] at hx
    simp only [mkUserMessage] at hmark hx
    rw [hmark] at hx
    simp at hx
    rcases hx with hx | hx
    · exact hx
    · subst hx
      simp at hrole
  · simp [sendMessage, hin, hload, hu, hs, hr]

/-- Witness for C4: relay returns HTTP 500 with body `{message: "rate limited"}`. -/
theorem C4_relay_failure_witness :
    jsTrim "hello" ≠ "" ∧
    (sendMessage ⟨none, true, .err 500 (some "rate limited"), none⟩ true
        "1" "t1" "2" "t2" "th" ⟨[], "hello", false, none⟩).messages =
      [{ mkUserMessage "1" (jsTrim "hello") "t1" "th" with
          failed := true, pending := false }] ∧
    (sendMessage ⟨none, true, .err 500 (some "rate limited"), none⟩ true
        "1" "t1" "2" "t2" "th" ⟨[], "hello", false, none⟩).error = some "rate limited" ∧
    (sendMessage ⟨none, true, .err 500 (some "rate limited"), none⟩ true
        "1" "t1" "2" "t2" "th" ⟨[], "hello", false, none⟩).assistantRowsInserted = 0 := by
  have h := C4_relay_failure ⟨none, true, .err 500 (some "rate limited"), none⟩
    "1" "t1" "2" "t2" "th" ⟨[], "hello", false, none⟩ 500 "rate limited"
    (by decide) rfl rfl rfl rfl (by decide) (by intro x hx; simp at hx)
  exact ⟨by decide, h.1, h.2.1, h.2.2.2.1⟩

/-- Unfolding `retryMessage` in the terminal `attempt >= 4` branch. -/
theorem retryMessage_terminal (env : Nat → RetryAttemptEnv) (message : Message)
    (msgs : List Message) (attempt : Nat) (il : Bool) (ha : 4 ≤ attempt) :
    retryMessage env message msgs attempt il =
      { messages := markTerminalFailed message.id attempt msgs,
        error := some "Message failed after multiple attempts",
        isLoading := il, relayCalls := 0, insertedRows := [], delays := [] } := by
  rw [retryMessage]
  simp [ha]

/-- Unfolding `retryMessage` when no session is available: no relay call,
recurse at `attempt + 1`. -/
theorem retryMessage_noSession (env : Nat → RetryAttemptEnv) (message : Message)
    (msgs : List Message) (attempt : Nat) (il : Bool) (ha : attempt < 4)
    (hs : (env attempt).sessionPresent = false) :
    retryMessage env message msgs attempt il =
      { retryMessage env message msgs (attempt + 1) true with
          isLoading := false
          delays := (if 0 < attempt then [getBackoffDelay attempt] else []) ++
            (retryMessage env message msgs (attempt + 1) true).delays } := by
  rw [retryMessage]
  simp [Nat.not_le.mpr ha, hs]

/-- Unfolding `retryMessage` on a non-2xx relay response: one relay call,
recurse at `attempt + 1`. -/
theorem retryMessage_relayErr (env : Nat → RetryAttemptEnv) (message : Message)
    (msgs : List Message) (attempt : Nat) (il : Bool) (ha : attempt < 4)
    (hs : (env attempt).sessionPresent = true) (s : Nat) (m : Option String)
    (hr : (env attempt).relay = .err s m) :
    retryMessage env message msgs attempt il =
      { retryMessage env message msgs (attempt + 1) true with
          isLoading := false
          relayCalls := (retryMessage env message msgs (attempt + 1) true).relayCalls + 1
          delays := (if 0 < attempt then [getBackoffDelay attempt] else []) ++
            (retryMessage env message msgs (attempt + 1) true).delays } := by
  rw [retryMessage]
  simp [Nat.not_le.mpr ha, hs, hr]

/-- Unfolding `retryMessage` when the relay succeeds but the supabase
insert errors: one relay call, recurse at `attempt + 1`. -/
theorem retryMessage_insertErr (env : Nat → RetryAttemptEnv) (message : Message)
    (msgs : List Message) (attempt : Nat) (il : Bool) (ha : attempt < 4)
    (hs : (env attempt).sessionPresent = true) (c : Option String)
    (hr : (env attempt).relay = .ok c) (hi : (env attempt).insertFails = true) :
    retryMessage env message msgs attempt il =
      { retryMessage env message msgs (attempt + 1) true with
          isLoading := false
          relayCalls := (retryMessage env message msgs (attempt + 1) true).relayCalls + 1
          delays := (if 0 < attempt then [getBackoffDelay attempt] else []) ++
            (retryMessage env message msgs (attempt + 1) true).delays } := by
  rw [retryMessage]
  simp [Nat.not_le.mpr ha, hs, hr, hi]

/-- Unfolding `retryMessage` on a fully successful attempt: the store only
flips the flags of the retried message, and the single row inserted
remotely is the original message's (content, role) — not the relay's
reply. -/
theorem retryMessage_success (env : Nat → RetryAttemptEnv) (message : Message)
    (msgs : List Message) (attempt : Nat) (il : Bool) (ha : attempt < 4)
    (hs : (env attempt).sessionPresent = true) (c : Option String)
    (hr : (env attempt).relay = .ok c) (hi : (env attempt).insertFails = false) :
    retryMessage env message msgs attempt il =
      { messages := markRetrySuccess message.id attempt msgs,
        error := none, isLoading := false, relayCalls := 1,
        insertedRows := [(message.content, message.role)],
        delays := if 0 < attempt then [getBackoffDelay attempt] else [] } := by
  rw [retryMessage]
  simp [Nat.not_le.mpr ha, hs, hr, hi]

/-- If from attempt `a` on every attempt up to 3 has a session but a
failing relay, the retry loop ends in the terminal state at attempt 4,
having made `4 - a` relay calls. -/
theorem retry_relay_always_fails (env : Nat → RetryAttemptEnv) (message : Message)
    (msgs : List Message) (a : Nat) (il : Bool) (ha : a ≤ 4)
    (hfail : ∀ k, a ≤ k → k < 4 →
      (env k).sessionPresent = true ∧ ∃ s m, (env k).relay = .err s m) :
    (retryMessage env message msgs a il).messages = markTerminalFailed message.id 4 msgs ∧
    (retryMessage env message msgs a il).error =
      some "Message failed after multiple attempts" ∧
    (retryMessage env message msgs a il).relayCalls = 4 - a := by
  suffices h : ∀ n a il, 4 - a = n → a ≤ 4 →
      (∀ k, a ≤ k → k < 4 →
        (env k).sessionPresent = true ∧ ∃ s m, (env k).relay = .err s m) →
      (retryMessage env message msgs a il).messages =
          markTerminalFailed message.id 4 msgs ∧
      (retryMessage env message msgs a il).error =
          some "Message failed after multiple attempts" ∧
      (retryMessage env message msgs a il).relayCalls = 4 - a by
    exact h (4 - a) a il rfl ha hfail
  intro n
  induction n with
  | zero =>
      intro a il hn ha' hfail'
      have h4 : a = 4 := by omega
      subst h4
      rw [retryMessage_terminal env message msgs 4 il (by omega)]
      exact ⟨rfl, rfl, rfl⟩
  | succ n ih =>
      intro a il hn ha' hfail'
      have ha4 : a < 4 := by omega
      obtain ⟨hs, s, m, hr⟩ := hfail' a le_rfl ha4
      rw [retryMessage_relayErr env message msgs a il ha4 hs s m hr]
      have ih' := ih (a + 1) true (by omega) (by omega)
        (fun k hk1 hk2 => hfail' k (by omega) hk2)
      exact ⟨ih'.1, ih'.2.1, by simp only [ih'.2.2]; omega⟩

/-- C2: retrying a message whose every retry attempt has a session but a
failing relay reaches the terminal state after exactly 4 relay attempts
(not 5): the message ends `failed = true`, `pending = false`,
`retryCount = 4`, and the terminal error is surfaced. -/
theorem C2_retry_exhaustion (env : Nat → RetryAttemptEnv) (message : Message)
    (msgs : List Message) (il : Bool)
    (hfail : ∀ k, k < 4 →
      (env k).sessionPresent = true ∧ ∃ s m, (env k).relay = .err s m) :
    (retryMessage env message msgs 0 il).messages = markTerminalFailed message.id 4 msgs ∧
    (retryMessage env message msgs 0 il).error =
      some "Message failed after multiple attempts" ∧
    (retryMessage env message msgs 0 il).relayCalls = 4 ∧
    ∀ x ∈ (retryMessage env message msgs 0 il).messages, x.id = message.id →
      x.failed = true ∧ x.pending = false ∧ x.retryCount = some 4 := by
  have h := retry_relay_always_fails env message msgs 0 il (by omega)
    (fun k _ hk => hfail k hk)
  refine ⟨h.1, h.2.1, h.2.2, ?_⟩
  intro x hx hid
  rw [h.1] at hx
  exact markTerminalFailed_mem message.id 4 msgs x hx hid

/-- Witness for C2: one failed user message, relay answering 500 on every
attempt. -/
theorem C2_retry_exhaustion_witness :
    (∀ k, k < 4 →
      ((fun _ => (⟨true, .err 500 (some "boom"), false⟩ : RetryAttemptEnv)) k).sessionPresent
          = true ∧
      ∃ s m, ((fun _ => (⟨true, .err 500 (some "boom"), false⟩ : RetryAttemptEnv)) k).relay
          = .err s m) ∧
    (retryMessage (fun _ => ⟨true, .err 500 (some "boom"), false⟩)
        ⟨"m1", "q", .user, "t0", "th1", false, true, none⟩
        [⟨"m1", "q", .user, "t0", "th1", false, true, none⟩] 0 false).messages =
      markTerminalFailed "m1" 4
        [⟨"m1", "q", .user, "t0", "th1", false, true, none⟩] ∧
    (retryMessage (fun _ => ⟨true, .err 500 (some "boom"), false⟩)
        ⟨"m1", "q", .user, "t0", "th1", false, true, none⟩
        [⟨"m1", "q", .user, "t0", "th1", false, true, none⟩] 0 false).relayCalls = 4 := by
  have h := C2_retry_exhaustion (fun _ => ⟨true, .err 500 (some "boom"), false⟩)
    ⟨"m1", "q", .user, "t0", "th1", false, true, none⟩
    [⟨"m1", "q", .user, "t0", "th1", false, true, none⟩] false
    (fun k _ => ⟨rfl, 500, some "boom", rfl⟩)
  exact ⟨fun k _ => ⟨rfl, 500, some "boom", rfl⟩, h.1, h.2.2.1⟩

/-- If every attempt in `[a, j)` fails and attempt `j < 4` succeeds, the
retry loop started at `a` ends with the success transition of attempt `j`
and no error. -/
theorem retry_succeeds_at (env : Nat → RetryAttemptEnv) (message : Message)
    (msgs : List Message) (a j : Nat) (il : Bool) (haj : a ≤ j) (hj : j < 4)
    (hfail : ∀ k, a ≤ k → k < j → attemptFails (env k))
    (hsucc : attemptSucceeds (env j)) :
    (retryMessage env message msgs a il).messages = markRetrySuccess message.id j msgs ∧
    (retryMessage env message msgs a il).error = none := by
  suffices h : ∀ n a il, j - a = n → a ≤ j →
      (∀ k, a ≤ k → k < j → attemptFails (env k)) →
      (retryMessage env message msgs a il).messages =
          markRetrySuccess message.id j msgs ∧
      (retryMessage env message msgs a il).error = none by
    exact h (j - a) a il rfl haj hfail
  intro n
  induction n with
  | zero =>
      intro a il hn haj' hfail'
      have haj2 : a = j := by omega
      subst haj2
      obtain ⟨hs, ⟨c, hr⟩, hi⟩ := hsucc
      rw [retryMessage_success env message msgs a il (by omega) hs c hr hi]
      exact ⟨rfl, rfl⟩
  | succ n ih =>
      intro a il hn haj' hfail'
      have ha' : a < j := by omega
      have ih' := ih (a + 1) true (by omega) (by omega)
        (fun k hk1 hk2 => hfail' k (by omega) hk2)
      rcases hfail' a le_rfl ha' with hs | ⟨s, m, hr⟩ | ⟨c, hr, hi⟩
      · rw [retryMessage_noSession env message msgs a il (by omega) hs]
        exact ih'
      · by_cases hsess : (env a).sessionPresent = true
        · rw [retryMessage_relayErr env message msgs a il (by omega) hsess s m hr]
          exact ih'
        · rw [retryMessage_noSession env message msgs a il (by omega)
            (by simpa using hsess)]
          exact ih'
      · by_cases hsess : (env a).sessionPresent = true
        · rw [retryMessage_insertErr env message msgs a il (by omega) hsess c hr hi]
          exact ih'
        · rw [retryMessage_noSession env message msgs a il (by omega)
            (by simpa using hsess)]
          exact ih'

/-- C7: a retry that fails up to attempt `j` and succeeds at attempt
`j < 4` clears the failed flag (`failed = false`, `pending = false`) of
the retried message and sets its `retryCount` to `j`, the attempt number
at which the success occurred. -/
theorem C7_retry_success (env : Nat → RetryAttemptEnv) (message : Message)
    (msgs : List Message) (il : Bool) (j : Nat) (hj : j < 4)
    (hfail : ∀ k, k < j → attemptFails (env k))
    (hsucc : attemptSucceeds (env j)) :
    (retryMessage env message msgs 0 il).messages = markRetrySuccess message.id j msgs ∧
    (retryMessage env message msgs 0 il).error = none ∧
    ∀ x ∈ (retryMessage env message msgs 0 il).messages, x.id = message.id →
      x.failed = false ∧ x.pending = false ∧ x.retryCount = some j := by
  have h := retry_succeeds_at env message msgs 0 j il (by omega) hj
    (fun k _ hk => hfail k hk) hsucc
  refine ⟨h.1, h.2, ?_⟩
  intro x hx hid
  rw [h.1] at hx
  exact markRetrySuccess_mem message.id j msgs x hx hid

/-- Witness for C7: two failing attempts, success at attempt 2. -/
theorem C7_retry_success_witness :
    (2 : Nat) < 4 ∧
    (∀ k, k < 2 → attemptFails
      ((fun k => if k < 2 then (⟨true, .err 500 none, false⟩ : RetryAttemptEnv)
        else ⟨true, .ok (some "reply"), false⟩) k)) ∧
    attemptSucceeds
      ((fun k => if k < 2 then (⟨true, .err 500 none, false⟩ : RetryAttemptEnv)
        else ⟨true, .ok (some "reply"), false⟩) 2) ∧
    (retryMessage
        (fun k => if k < 2 then (⟨true, .err 500 none, false⟩ : RetryAttemptEnv)
          else ⟨true, .ok (some "reply"), false⟩)
        ⟨"m1", "q", .user, "t0", "th1", false, true, none⟩
        [⟨"m1", "q", .user, "t0", "th1", false, true, none⟩] 0 false).messages =
      markRetrySuccess "m1" 2 [⟨"m1", "q", .user, "t0", "th1", false, true, none⟩] := by
  have hf : ∀ k, k < 2 → attemptFails
      ((fun k => if k < 2 then (⟨true, .err 500 none, false⟩ : RetryAttemptEnv)
        else ⟨true, .ok (some "reply"), false⟩) k) := by
    intro k hk
    simp only [if_pos hk]
    exact Or.inr (Or.inl ⟨500, none, rfl⟩)
  have hs : attemptSucceeds
      ((fun k => if k < 2 then (⟨true, .err 500 none, false⟩ : RetryAttemptEnv)
        else ⟨true, .ok (some "reply"), false⟩) 2) := by
    simp only [show ¬(2 < 2) by omega, if_neg]
    exact ⟨rfl, ⟨some "reply", rfl⟩, rfl⟩
  have h := C7_retry_success
    (fun k => if k < 2 then (⟨true, .err 500 none, false⟩ : RetryAttemptEnv)
      else ⟨true, .ok (some "reply"), false⟩)
    ⟨"m1", "q", .user, "t0", "th1", false, true, none⟩
    [⟨"m1", "q", .user, "t0", "th1", false, true, none⟩] false 2 (by omega) hf hs
  exact ⟨by omega, hf, hs, h.1⟩

/-- C3 (code evaluation): a retry whose attempt 0 fully succeeds — the
relay answers with an assistant reply — inserts exactly the original
message's (content, role) pair remotely, appends nothing to the
conversation store (it only flips the flags of the retried message), and
in particular creates zero assistant messages: the relay's reply is
discarded. -/
theorem C3_retry_creates_no_assistant :
    (retryMessage (fun _ => ⟨true, .ok (some "Promissory estoppel is..."), false⟩)
        ⟨"m1", "q", .user, "t0", "th1", false, true, none⟩
        [⟨"m1", "q", .user, "t0", "th1", false, true, none⟩] 0 false).insertedRows =
      [("q", Role.user)] ∧
    (retryMessage (fun _ => ⟨true, .ok (some "Promissory estoppel is..."), false⟩)
        ⟨"m1", "q", .user, "t0", "th1", false, true, none⟩
        [⟨"m1", "q", .user, "t0", "th1", false, true, none⟩] 0 false).messages =
      [⟨"m1", "q", .user, "t0", "th1", false, false, some 0⟩] ∧
    ((retryMessage (fun _ => ⟨true, .ok (some "Promissory estoppel is..."), false⟩)
        ⟨"m1", "q", .user, "t0", "th1", false, true, none⟩
        [⟨"m1", "q", .user, "t0", "th1", false, true, none⟩] 0 false).messages.filter
      fun x => x.role == Role.assistant) = [] := by
  rw [retryMessage_success
    (fun _ => ⟨true, .ok (some "Promissory estoppel is..."), false⟩)
    ⟨"m1", "q", .user, "t0", "th1", false, true, none⟩
    [⟨"m1", "q", .user, "t0", "th1", false, true, none⟩] 0 false (by omega)
    rfl (some "Promissory estoppel is...") rfl rfl]
  refine ⟨rfl, ?_, ?_⟩ <;> decide

/-- C9: every store update of the delivery/retry flow preserves the
invariant that `pending` and `failed` are never simultaneously true: the
optimistic append adds a message with both flags false, and every flag
transition writes `pending = false`. -/
theorem C9_flags_exclusive (op : DeliveryOp) (msgs : List Message)
    (h : ∀ m ∈ msgs, flagsExclusive m) :
    ∀ m ∈ applyDeliveryOp op msgs, flagsExclusive m := by
  intro m hm
  cases op with
  | optimisticAppend newId content createdAt threadId =>
      simp only [applyDeliveryOp, List.mem_append, List.mem_singleton] at hm
      rcases hm with hm | hm
      · exact h m hm
      · subst hm
        exact Or.inl rfl
  | sendFailure id =>
      simp only [applyDeliveryOp, markFailed, List.mem_map] at hm
      obtain ⟨x, hx, hm⟩ := hm
      by_cases hid : x.id = id
      · rw [if_pos hid] at hm
        subst hm
        exact Or.inl rfl
      · rw [if_neg hid] at hm
        subst hm
        exact h x hx
  | terminalRetryFailure id attempt =>
      simp only [applyDeliveryOp, markTerminalFailed, List.mem_map] at hm
      obtain ⟨x, hx, hm⟩ := hm
      by_cases hid : x.id = id
      · rw [if_pos hid] at hm
        subst hm
        exact Or.inl rfl
      · rw [if_neg hid] at hm
        subst hm
        exact h x hx
  | retrySuccess id attempt =>
      simp only [applyDeliveryOp, markRetrySuccess, List.mem_map] at hm
      obtain ⟨x, hx, hm⟩ := hm
      by_cases hid : x.id = id
      · rw [if_pos hid] at hm
        subst hm
        exact Or.inl rfl
      · rw [if_neg hid] at hm
        subst hm
        exact h x hx

/-- Witness for C9 on the terminal-failure transition of a one-message
store. -/
theorem C9_flags_exclusive_witness :
    (∀ m ∈ [(⟨"m1", "q", .user, "t0", "th1", false, true, none⟩ : Message)],
      flagsExclusive m) ∧
    ∀ m ∈ applyDeliveryOp (.terminalRetryFailure "m1" 4)
        [(⟨"m1", "q", .user, "t0", "th1", false, true, none⟩ : Message)],
      flagsExclusive m :=
  ⟨by
    intro m hm
    rw [List.mem_singleton] at hm
    subst hm
    exact Or.inl rfl,
   C9_flags_exclusive (.terminalRetryFailure "m1" 4)
     [⟨"m1", "q", .user, "t0", "th1", false, true, none⟩]
     (by
       intro m hm
       rw [List.mem_singleton] at hm
       subst hm
       exact Or.inl rfl)⟩

/-- Filtering by `p` after keeping only the elements refuting `p` leaves
nothing. -/
theorem filter_not_filter_eq_nil {α : Type} (p : α → Bool) (l : List α) :
    (l.filter fun a => !p a).filter p = [] := by
  induction l with
  | nil => rfl
  | cons a l ih =>
      by_cases h : p a <;> simp [List.filter_cons, h, ih]

/-- C8: when connectivity flips from offline to online while the queue
holds exactly one pending message, the retry controller is invoked for
that message exactly once; the queue entry is consumed, so re-running the
flip (online → offline → online) invokes it zero further times. -/
theorem C8_offline_online_resync (st : NetState) (k : String) (msg : Message)
    (hoff : st.isOnline = false)
    (hpend : pendingEntries st.storage = [(k, msg)]) :
    (connectivityEvent (some true) st).2 = [msg] ∧
    (connectivityEvent (some true) st).1.isOnline = true ∧
    pendingEntries (connectivityEvent (some true) st).1.storage = [] ∧
    (connectivityEvent (some true)
      ((connectivityEvent (some false) ((connectivityEvent (some true) st).1)).1)).2
      = [] := by
  have h1 : connectivityEvent (some true) st =
      ({ isOnline := true,
         storage := st.storage.filter fun kv => !jsStartsWith kv.1 "pending_message_" },
       (pendingEntries st.storage).map Prod.snd) := by
    simp [connectivityEvent, syncPendingMessages, hoff]
  have hrem : pendingEntries
      (st.storage.filter fun kv => !jsStartsWith kv.1 "pending_message_") = [] := by
    simp only [pendingEntries]
    exact filter_not_filter_eq_nil (fun kv : String × Message =>
      jsStartsWith kv.1 "pending_message_") st.storage
  refine ⟨?_, ?_, ?_, ?_⟩
  · rw [h1, hpend]
    rfl
  · rw [h1]
  · rw [h1]
    exact hrem
  · rw [h1]
    have h2 : connectivityEvent (some false)
        ({ isOnline := true,
           storage := st.storage.filter fun kv =>
             !jsStartsWith kv.1 "pending_message_" } : NetState) =
        ({ isOnline := false,
           storage := st.storage.filter fun kv =>
             !jsStartsWith kv.1 "pending_message_" }, []) := by
      simp [connectivityEvent]
    rw [h2]
    simp [connectivityEvent, syncPendingMessages, hrem]

/-- Witness for C8 on a queue holding exactly one pending message. -/
theorem C8_offline_online_resync_witness :
    (⟨false, [("pending_message_1",
        ⟨"m1", "q", .user, "t0", "th1", false, true, none⟩)]⟩ : NetState).isOnline
      = false ∧
    pendingEntries
      (⟨false, [("pending_message_1",
        ⟨"m1", "q", .user, "t0", "th1", false, true, none⟩)]⟩ : NetState).storage =
      [("pending_message_1", ⟨"m1", "q", .user, "t0", "th1", false, true, none⟩)] ∧
    (connectivityEvent (some true)
      ⟨false, [("pending_message_1",
        ⟨"m1", "q", .user, "t0", "th1", false, true, none⟩)]⟩).2 =
      [⟨"m1", "q", .user, "t0", "th1", false, true, none⟩] := by
  have h := C8_offline_online_resync
    ⟨false, [("pending_message_1", ⟨"m1", "q", .user, "t0", "th1", false, true, none⟩)]⟩
    "pending_message_1" ⟨"m1", "q", .user, "t0", "th1", false, true, none⟩
    rfl (by decide)
  exact ⟨rfl, by decide, h.1⟩

/-- Writing one cache key leaves every lookup under a different key
unchanged. -/
theorem cacheGet_cacheSet_ne (k k' : String) (hne : k ≠ k') (v : List Message)
    (kv : CacheStore) :
    cacheGet k (cacheSet k' v kv) = cacheGet k kv := by
  simp only [cacheGet, cacheSet]
  congr 1
  rw [List.find?_cons_of_neg _ (by simp [Ne.symm hne])]
  induction kv with
  | nil => rfl
  | cons e l ih =>
      by_cases he : e.1 = k'
      · rw [List.filter_cons_of_neg (by simp [he])]
        rw [ih]
        rw [List.find?_cons_of_neg _ (by simp [he, Ne.symm hne])]
      · rw [List.filter_cons_of_pos (by simp [he])]
        by_cases hp : e.1 = k
        · rw [List.find?_cons_of_pos _ (by simp [hp]),
            List.find?_cons_of_pos _ (by simp [hp])]
        · rw [List.find?_cons_of_neg _ (by simp [hp]),
            List.find?_cons_of_neg _ (by simp [hp])]
          exact ih

/-- C10: `setMessages` writes the durable cache only under the constant
key `'cached_messages'`, which differs from every per-thread key
`'cached_messages_' + t`; hence it leaves every per-thread key unchanged,
and the cached read of a subsequent `syncMessages t` — which reads only
`'cached_messages_' + t` — observes exactly what it would have observed
without the `setMessages`: the saved snapshot is never restored through
the cache. -/
theorem C10_cache_round_trip (t : String) (ms : List Message) (st : StoreState)
    (server : Option (List Message)) :
    "cached_messages_" ++ t ≠ "cached_messages" ∧
    cacheGet ("cached_messages_" ++ t) (storeSetMessages ms st).cache =
      cacheGet ("cached_messages_" ++ t) st.cache ∧
    (storeSyncMessages t server (storeSetMessages ms st)).2 =
      (storeSyncMessages t server st).2 := by
  have hne : "cached_messages_" ++ t ≠ "cached_messages" := by
    intro h
    have hl := congrArg String.length h
    rw [String.length_append] at hl
    have h1 : "cached_messages_".length = 16 := rfl
    have h2 : "cached_messages".length = 15 := rfl
    omega
  have hget := cacheGet_cacheSet_ne ("cached_messages_" ++ t) "cached_messages" hne
    ms st.cache
  refine ⟨hne, ?_, ?_⟩
  · simpa [storeSetMessages] using hget
  · cases server <;> simp [storeSyncMessages, storeSetMessages, hget]

end AskJDS
